import Mathlib

/-!
Shallow embedding of `src/installer_verify.py`, a linear installer-verification
orchestrator.  Pure control flow is translated directly; interaction with the
operating system (filesystem queries and mutations, subprocess execution,
network fetches, wall-clock sleeps) is made explicit:

* `FS` models the filesystem state the script reads and writes: a finite map
  from paths to regular-file contents plus a set of directories.
* `Env` is an oracle for outcomes the script does not control: whether a
  remote fetch or a symlink call raises on a given attempt, the installer
  subprocess's outcome, whether the simulation or deletion raises, and the
  arbitrary filesystem effect of running the installer script.
* Blocking sleeps and attempt numbers are recorded in an event trace (`Ev`),
  so retry counts and backoff delays are provable facts about traces.

Each Lean definition keeps the name of the Python function it embeds.
-/

namespace InstallerVerify

/-- Exit code 0: success (`EXIT_SUCCESS` in the source). -/
def EXIT_SUCCESS : Nat := 0

/-- Exit code 2: download/acquisition failure (`EXIT_DOWNLOAD_FAIL`). -/
def EXIT_DOWNLOAD_FAIL : Nat := 2

/-- Exit code 3: installer execution failure (`EXIT_INSTALL_FAIL`). -/
def EXIT_INSTALL_FAIL : Nat := 3

/-- Exit code 4: post-install validation failure, reused for uninstall
failure (`EXIT_VALIDATE_FAIL`). -/
def EXIT_VALIDATE_FAIL : Nat := 4

/-- Exit code 9: unexpected/forced fault (`EXIT_EXCEPTION`). -/
def EXIT_EXCEPTION : Nat := 9

/-- Filesystem state visible to the script: regular files with their contents,
and directories.  `os.path.getsize` is the content length. -/
structure FS where
  files : List (String × String)
  dirs : List String
deriving DecidableEq

/-- Content of the regular file at `p`, if one exists (`open(p).read()`). -/
def FS.lookupFile (fs : FS) (p : String) : Option String :=
  (fs.files.find? (fun e => e.1 = p)).map (fun e => e.2)

/-- `os.path.isfile p`. -/
def FS.isFile (fs : FS) (p : String) : Bool :=
  (fs.lookupFile p).isSome

/-- `os.path.getsize p` (0 when the file is absent; the script only calls it
behind an `isfile` guard). -/
def FS.getsize (fs : FS) (p : String) : Nat :=
  ((fs.lookupFile p).getD "").length

/-- `os.path.isdir p`. -/
def FS.isDir (fs : FS) (p : String) : Bool :=
  fs.dirs.contains p

/-- Create or overwrite the regular file at `p` with content `c`. -/
def FS.writeF (fs : FS) (p c : String) : FS :=
  ⟨(p, c) :: fs.files.filter (fun e => ¬ e.1 = p), fs.dirs⟩

/-- `os.remove p`. -/
def FS.removeF (fs : FS) (p : String) : FS :=
  ⟨fs.files.filter (fun e => ¬ e.1 = p), fs.dirs⟩

/-- `os.makedirs(d, exist_ok=True)`: no error and no change when the directory
already exists. -/
def FS.makedirs (fs : FS) (d : String) : FS :=
  if fs.isDir d then fs else ⟨fs.files, d :: fs.dirs⟩

/-- Whether path `p` lies strictly below directory `d`. -/
def underDir (d p : String) : Bool :=
  (d ++ "/").isPrefixOf p

/-- Effect of the `os.walk` deletion loop plus the final `os.rmdir`: every
file and directory at or below `d` is gone. -/
def FS.removeTree (fs : FS) (d : String) : FS :=
  ⟨fs.files.filter (fun e => ¬ underDir d e.1),
   fs.dirs.filter (fun x => ¬ (x = d ∨ underDir d x))⟩

/-- `os.path.join d f` for the relative names this script joins. -/
def pathJoin (d f : String) : String := d ++ "/" ++ f

/-- Python `s.startswith(pre)`, computed on the underlying character lists
(`String.startsWith` itself is not kernel-reducible). -/
def strStartsWith (s pre : String) : Bool := pre.data.isPrefixOf s.data

/-- Python `s.endswith(suf)`, computed on the underlying character lists. -/
def strEndsWith (s suf : String) : Bool := suf.data.isSuffixOf s.data

/-- Events on the single execution thread that the claims quantify over:
entering retry attempt `n`, and a blocking `time.sleep` of `secs` seconds. -/
inductive Ev where
  | attempt (n : Nat)
  | sleep (secs : Nat)
deriving DecidableEq

/-- Whether an event is the start of a retry attempt. -/
def Ev.isAttempt : Ev → Bool
  | .attempt _ => true
  | .sleep _ => false

/-- Outcome of the `subprocess.run` call inside `run_cmd`: either the process
completed with an exit code and captured streams, or `TimeoutExpired` was
raised. -/
inductive RunOutcome where
  | completed (code : Int) (out err : String)
  | timedOut

/-- Oracle for every outcome decided by the operating system rather than by
the script itself.  Attempt-indexed fields let different retry attempts
fail differently. -/
structure Env where
  /-- `os.path.abspath`. -/
  abspath : String → String
  /-- Whether `urlretrieve` succeeds on attempt `n`. -/
  urlFetchOk : Nat → Bool
  /-- Bytes a successful `urlretrieve` writes to the destination. -/
  fetched : String
  /-- Whether the `os.remove`/`os.symlink` pair succeeds on attempt `n`. -/
  linkOk : Nat → Bool
  /-- Outcome of the installer subprocess started by `run_cmd`. -/
  runOutcome : RunOutcome
  /-- Filesystem effect of the installer script having run (it runs under
  `bash` and may mutate anything, whatever its exit code). -/
  fsAfterRun : FS → FS
  /-- Whether `os.makedirs`/`open(...).write` inside the simulation raises. -/
  simErr : Bool
  /-- Whether the deletion loop inside `uninstall` raises. -/
  uninstallErr : Bool
  /-- UTC timestamp string used in default file names. -/
  timestamp : String
  /-- `int(time.time() - start_time)` at finalization. -/
  duration : Nat

/-- `run_cmd`: runs the command; `TimeoutExpired` is collapsed to exit code 1
with stderr `"TimeoutExpired"`. -/
def runCmd (o : RunOutcome) : Int × String × String :=
  match o with
  | .completed c out err => (c, out, err)
  | .timedOut => (1, "", "TimeoutExpired")

/-- One iteration of the `try` body of `download_installer` at attempt `n`:
`some fs'` when the attempt completes, `none` when it raises.  A local path
that is not a regular file or has zero size raises `FileNotFoundError`
before any mutation; otherwise, for distinct absolute paths, the destination
is removed and re-created as a symlink, modelled as the destination taking
the source's content (nothing later mutates the source, so the alias and the
copy are indistinguishable to this program). -/
def dl_attempt (env : Env) (fs : FS) (build_url dest_path : String) (n : Nat) :
    Option FS :=
  if strStartsWith build_url "http" then
    if env.urlFetchOk n then some (fs.writeF dest_path env.fetched) else none
  else if ¬ (fs.isFile build_url = true ∧ fs.getsize build_url ≠ 0) then none
  else if env.abspath build_url = env.abspath dest_path then some fs
  else if env.linkOk n then
    some ((fs.removeF dest_path).writeF dest_path
      ((fs.lookupFile build_url).getD ""))
  else none

/-- The `while attempt <= retries` loop of `download_installer`, with fuel
`retries + 1 - attempt`.  Each failed attempt is followed by
`time.sleep(backoff)` before the counter is incremented — also after the
final attempt. -/
def dl_go (env : Env) (build_url dest_path : String) (backoff : Nat) :
    FS → Nat → Nat → Bool × FS × List Ev
  | fs, _, 0 => (false, fs, [])
  | fs, attempt, fuel + 1 =>
    match dl_attempt env fs build_url dest_path attempt with
    | some fs1 => (true, fs1, [Ev.attempt attempt])
    | none =>
      let r := dl_go env build_url dest_path backoff fs (attempt + 1) fuel
      (r.1, r.2.1, Ev.attempt attempt :: Ev.sleep backoff :: r.2.2)

/-- `download_installer(build_url, dest_path, retries=2, backoff=2)`: returns
success, the resulting filesystem, and the attempt/sleep trace. -/
def download_installer (env : Env) (fs : FS) (build_url dest_path : String)
    (retries : Nat := 2) (backoff : Nat := 2) : Bool × FS × List Ev :=
  dl_go env build_url dest_path backoff fs 0 (retries + 1)

/-- `sanity_check(path)`: a regular file of size strictly greater than 0. -/
def sanity_check (fs : FS) (path : String) : Bool :=
  fs.isFile path && decide (fs.getsize path > 0)

/-- The simulated-installation block of `silent_install`: create the install
directory (idempotently) and write the `version.txt` marker with content
`"1.0.0"`; returns 1 if the block raises, 0 otherwise. -/
def simulate_install (env : Env) (fs : FS) (install_dir : String) : Nat × FS :=
  if env.simErr then (1, fs)
  else
    let fs1 := fs.makedirs install_dir
    (0, fs1.writeF (pathJoin install_dir "version.txt") "1.0.0")

/-- `silent_install(installer_path, install_dir, dry_run)`: dry run returns 0
with no mutation; a `.sh` artifact is executed and a zero exit code returns 0;
otherwise (non-`.sh` artifact, non-zero exit, or timeout) control falls
through to `simulate_install`. -/
def silent_install (env : Env) (fs : FS) (installer_path install_dir : String)
    (dry_run : Bool) : Nat × FS :=
  if dry_run then (0, fs)
  else if strEndsWith installer_path ".sh" then
    let fs1 := env.fsAfterRun fs
    if (runCmd env.runOutcome).1 = 0 then (0, fs1)
    else simulate_install env fs1 install_dir
  else simulate_install env fs install_dir

/-- `validate_install(install_dir)`: sleeps 15 seconds, then true iff the
install directory exists and `version.txt` is a regular file inside it. -/
def validate_install (fs : FS) (install_dir : String) : Bool × List Ev :=
  (fs.isDir install_dir && fs.isFile (pathJoin install_dir "version.txt"),
   [Ev.sleep 15])

/-- `uninstall(install_dir)`: recursively delete the tree when the directory
exists (false if the deletion raises); no-op returning true otherwise. -/
def uninstall (env : Env) (fs : FS) (install_dir : String) : Bool × FS :=
  if fs.isDir install_dir then
    if env.uninstallErr then (false, fs) else (true, fs.removeTree install_dir)
  else (true, fs)

/-- Parsed command-line arguments of `main`. -/
structure Args where
  build_url : String
  app_name : String
  dry_run : Bool
  install_dir : String
  uninstall : Bool
  log_path : Option String
  force_exception : Bool

/-- The summary record `main` serializes exactly once: its five fields. -/
structure Summary where
  status : String
  status_code : Nat
  duration_seconds : Nat
  log_path : String
  checks_run : List String
deriving DecidableEq

/-- State at the end of `main`'s `try` block (or at the point a raise left
it): the status code so far, the accumulated `checks_run`, whether an
exception propagated to the `except` handler, and the filesystem. -/
structure BodyResult where
  status_code : Nat
  checks_run : List String
  raised : Bool
  fs : FS

/-- The ordered step names of the full-verify branch. -/
def fullSteps : List String := ["download", "sanity-check", "install", "validate"]

/-- The `try` block of `main`: mode selection (uninstall > dry-run >
force-exception > full verify) and the short-circuiting step sequence, with
each step's name appended to `checks_run` before the step runs. -/
def main_body (env : Env) (args : Args) (fs : FS) : BodyResult :=
  if args.uninstall then
    let u := uninstall env fs args.install_dir
    ⟨if u.1 then EXIT_SUCCESS else EXIT_VALIDATE_FAIL, ["uninstall"], false, u.2⟩
  else if args.dry_run then
    ⟨EXIT_SUCCESS, ["dry-run"], false, fs⟩
  else if args.force_exception then
    ⟨EXIT_SUCCESS, [], true, fs⟩
  else
    let dest := pathJoin "/tmp" (args.app_name ++ "_installer.sh")
    let dl := download_installer env fs args.build_url dest 2 2
    if dl.1 = false then
      ⟨EXIT_DOWNLOAD_FAIL, ["download"], true, dl.2.1⟩
    else if sanity_check dl.2.1 dest = false then
      ⟨EXIT_DOWNLOAD_FAIL, ["download", "sanity-check"], true, dl.2.1⟩
    else
      let inst := silent_install env dl.2.1 dest args.install_dir args.dry_run
      if ¬ inst.1 = 0 then
        ⟨EXIT_INSTALL_FAIL, ["download", "sanity-check", "install"], true, inst.2⟩
      else if (validate_install inst.2 args.install_dir).1 = false then
        ⟨EXIT_VALIDATE_FAIL, fullSteps, true, inst.2⟩
      else
        ⟨EXIT_SUCCESS, fullSteps, false, inst.2⟩

/-- What `main` produces on every invocation: the summary object, the path it
is written to, and the process exit code passed to `sys.exit`. -/
structure MainResult where
  summary : Summary
  summary_path : String
  exit_code : Nat

/-- `main`: argument-independent setup, the `try`/`except` boundary (the
generic exception code is assigned only when no step already set a code),
and the single finalization that builds the summary and exits. -/
def main (env : Env) (args : Args) (fs : FS) : MainResult :=
  let log_path :=
    match args.log_path with
    | some p =>
      if p = "" then "install_verification_" ++ env.timestamp ++ ".log" else p
    | none => "install_verification_" ++ env.timestamp ++ ".log"
  let b := main_body env args fs
  let status_code :=
    if b.raised = true ∧ b.status_code = EXIT_SUCCESS then EXIT_EXCEPTION
    else b.status_code
  { summary :=
      { status := if status_code = EXIT_SUCCESS then "success" else "failure"
        status_code := status_code
        duration_seconds := env.duration
        log_path := log_path
        checks_run := b.checks_run }
    summary_path := args.app_name ++ "_summary_" ++ env.timestamp ++ ".json"
    exit_code := status_code }

/-! ### Basic lemmas about the embedded operations -/

theorem main_summary_checks (env : Env) (args : Args) (fs : FS) :
    (main env args fs).summary.checks_run = (main_body env args fs).checks_run := rfl

theorem main_exit_code_eq (env : Env) (args : Args) (fs : FS) :
    (main env args fs).exit_code =
      if (main_body env args fs).raised = true ∧
          (main_body env args fs).status_code = EXIT_SUCCESS then EXIT_EXCEPTION
      else (main_body env args fs).status_code := rfl

theorem main_summary_status_code (env : Env) (args : Args) (fs : FS) :
    (main env args fs).summary.status_code = (main env args fs).exit_code := rfl

theorem main_summary_status (env : Env) (args : Args) (fs : FS) :
    (main env args fs).summary.status =
      if (main env args fs).exit_code = EXIT_SUCCESS then "success" else "failure" := rfl

theorem writeF_lookup_self (fs : FS) (p c : String) :
    (fs.writeF p c).lookupFile p = some c := by
  simp [FS.writeF, FS.lookupFile]

theorem writeF_isDir (fs : FS) (p c d : String) :
    (fs.writeF p c).isDir d = fs.isDir d := rfl

theorem makedirs_isDir_self (fs : FS) (d : String) :
    (fs.makedirs d).isDir d = true := by
  unfold FS.makedirs
  split
  · assumption
  · simp [FS.isDir]

theorem makedirs_of_isDir (fs : FS) (d : String) (h : fs.isDir d = true) :
    fs.makedirs d = fs := by
  unfold FS.makedirs
  rw [if_pos h]

theorem main_body_status_code_mem (env : Env) (args : Args) (fs : FS) :
    (main_body env args fs).status_code ∈
      ([EXIT_SUCCESS, EXIT_DOWNLOAD_FAIL, EXIT_INSTALL_FAIL, EXIT_VALIDATE_FAIL] :
        List Nat) := by
  unfold main_body
  dsimp only
  repeat' split
  all_goals simp

/-! ### The acquisition retry loop on an always-failing input -/

/-- The trace the retry loop produces when every attempt fails: attempts
numbered from `a`, each followed by a `backoff`-second sleep. -/
def failTrace (backoff : Nat) : Nat → Nat → List Ev
  | _, 0 => []
  | a, f + 1 => Ev.attempt a :: Ev.sleep backoff :: failTrace backoff (a + 1) f

theorem dl_attempt_none_of_bad_local (env : Env) (fs : FS)
    (build_url dest_path : String) (n : Nat)
    (hh : strStartsWith build_url "http" = false)
    (hb : fs.isFile build_url = false ∨ fs.getsize build_url = 0) :
    dl_attempt env fs build_url dest_path n = none := by
  unfold dl_attempt
  rw [hh]
  simp only [Bool.false_eq_true, if_false]
  rw [if_pos]
  rcases hb with h | h
  · intro hc
    rw [h] at hc
    exact Bool.false_ne_true hc.1
  · intro hc
    exact hc.2 h

theorem dl_go_allFail (env : Env) (build_url dest_path : String)
    (backoff : Nat) (fs : FS)
    (h : ∀ n, dl_attempt env fs build_url dest_path n = none) :
    ∀ fuel a, dl_go env build_url dest_path backoff fs a fuel =
      (false, fs, failTrace backoff a fuel) := by
  intro fuel
  induction fuel with
  | zero => intro a; rfl
  | succ f ih =>
    intro a
    have hstep : dl_go env build_url dest_path backoff fs a (f + 1)
        = match dl_attempt env fs build_url dest_path a with
          | some fs1 => (true, fs1, [Ev.attempt a])
          | none =>
            let r := dl_go env build_url dest_path backoff fs (a + 1) f
            (r.1, r.2.1, Ev.attempt a :: Ev.sleep backoff :: r.2.2) := rfl
    rw [hstep, h a]
    dsimp only
    rw [ih (a + 1)]
    rfl

theorem failTrace_attempt_count (backoff : Nat) :
    ∀ fuel a, ((failTrace backoff a fuel).filter Ev.isAttempt).length = fuel := by
  intro fuel
  induction fuel with
  | zero => intro a; rfl
  | succ f ih =>
    intro a
    simp only [failTrace, List.filter, Ev.isAttempt, List.length_cons]
    rw [ih (a + 1)]

theorem failTrace_getLast (backoff : Nat) :
    ∀ fuel a, (failTrace backoff a (fuel + 1)).getLast? = some (Ev.sleep backoff) := by
  intro fuel
  induction fuel with
  | zero => intro a; rfl
  | succ f ih =>
    intro a
    have h1 : failTrace backoff a (f + 1 + 1)
        = Ev.attempt a :: Ev.sleep backoff :: failTrace backoff (a + 1) (f + 1) := rfl
    have h2 : failTrace backoff (a + 1) (f + 1)
        = Ev.attempt (a + 1) :: Ev.sleep backoff :: failTrace backoff (a + 1 + 1) f := rfl
    rw [h1, List.getLast?_cons_cons, h2, List.getLast?_cons_cons, ← h2]
    exact ih (a + 1)

/-! ### Concrete inputs used by the witness theorems -/

/-- Oracle in which every externally-decided operation fails or is inert. -/
def envNull : Env :=
  ⟨id, fun _ => false, "", fun _ => false, RunOutcome.completed 0 "" "", id,
   false, false, "20250101T000000", 0⟩

/-- The empty filesystem. -/
def fsEmpty : FS := ⟨[], []⟩

/-- Arguments selecting the forced-exception branch. -/
def argsForce : Args := ⟨"x", "app", false, "/opt/app", false, none, true⟩

/-- Arguments selecting uninstall mode. -/
def argsUn : Args := ⟨"x", "app", false, "/opt/app", true, none, false⟩

/-! ### Claims -/

/-- C1: on every invocation — any mode, any step outcome, any raise — `main`
produces exactly one summary record with the five fields
{status, status_code, duration_seconds, log_path, checks_run} (the model's
`main` returns a single `Summary` by construction, mirroring how the
`except` boundary catches every exception before the single summary write),
terminates with an exit code in {0, 2, 3, 4, 9}, the summary's `status_code`
equals the exit code, and `status` is `"success"` exactly when the exit code
is 0. -/
theorem C1_always_one_summary_bounded_exit (env : Env) (args : Args) (fs : FS) :
    (main env args fs).exit_code ∈ ([0, 2, 3, 4, 9] : List Nat) ∧
    (main env args fs).summary.status_code = (main env args fs).exit_code ∧
    ((main env args fs).summary.status = "success" ↔
      (main env args fs).exit_code = 0) ∧
    (main env args fs).summary.duration_seconds = env.duration := by
  refine ⟨?_, rfl, ?_, rfl⟩
  · rw [main_exit_code_eq]
    split
    · simp [EXIT_EXCEPTION]
    · have hm := main_body_status_code_mem env args fs
      simp only [EXIT_SUCCESS, EXIT_DOWNLOAD_FAIL, EXIT_INSTALL_FAIL,
        EXIT_VALIDATE_FAIL, List.mem_cons, List.not_mem_nil, or_false] at hm ⊢
      tauto
  · rw [main_summary_status]
    split
    · simp_all [EXIT_SUCCESS]
    · rename_i hne
      rw [EXIT_SUCCESS] at hne
      constructor
      · intro hc
        exact absurd hc (by decide)
      · intro hc
        exact absurd hc hne

/-- C9: `validate_install` first performs the fixed 15-second settle sleep
and then returns true if and only if the install directory exists as a
directory and `version.txt` exists as a regular file inside it — an
equivalence covering all four presence/absence combinations. -/
theorem C9_validate_settle_then_iff (fs : FS) (install_dir : String) :
    (validate_install fs install_dir).2 = [Ev.sleep 15] ∧
    ((validate_install fs install_dir).1 = true ↔
      fs.isDir install_dir = true ∧
      fs.isFile (pathJoin install_dir "version.txt") = true) :=
  ⟨rfl, by simp [validate_install]⟩

/-- C8: in uninstall mode `checks_run` is exactly `["uninstall"]`; the
process exits 0 when `uninstall` returns true — in particular when the
install directory does not exist (no-op) — and exits 4
(`EXIT_VALIDATE_FAIL`) when `uninstall` returns false because the deletion
raised. -/
theorem C8_uninstall_mode (env : Env) (args : Args) (fs : FS)
    (hu : args.uninstall = true) :
    (main env args fs).summary.checks_run = ["uninstall"] ∧
    (main env args fs).exit_code =
      (if (uninstall env fs args.install_dir).1 = true then EXIT_SUCCESS
       else EXIT_VALIDATE_FAIL) ∧
    (fs.isDir args.install_dir = false →
      (main env args fs).exit_code = EXIT_SUCCESS) ∧
    (fs.isDir args.install_dir = true → env.uninstallErr = true →
      (main env args fs).exit_code = EXIT_VALIDATE_FAIL) := by
  have hb : main_body env args fs =
      ⟨if (uninstall env fs args.install_dir).1 = true then EXIT_SUCCESS
        else EXIT_VALIDATE_FAIL,
       ["uninstall"], false, (uninstall env fs args.install_dir).2⟩ := by
    unfold main_body
    simp [hu]
  refine ⟨?_, ?_, ?_, ?_⟩
  · rw [main_summary_checks, hb]
  · rw [main_exit_code_eq, hb]
    simp
  · intro hdir
    have hun : uninstall env fs args.install_dir = (true, fs) := by
      unfold uninstall
      simp [hdir]
    rw [main_exit_code_eq, hb]
    simp [hun]
  · intro hdir herr
    have hun : uninstall env fs args.install_dir = (false, fs) := by
      unfold uninstall
      simp [hdir, herr]
    rw [main_exit_code_eq, hb]
    simp [hun, EXIT_VALIDATE_FAIL, EXIT_SUCCESS]

/-- Witness for C8: uninstall mode on a filesystem without the install
directory — `checks_run = ["uninstall"]` and exit code 0. -/
theorem C8_uninstall_mode_witness :
    argsUn.uninstall = true ∧
    (main envNull argsUn fsEmpty).summary.checks_run = ["uninstall"] ∧
    (main envNull argsUn fsEmpty).exit_code = EXIT_SUCCESS := by
  have h := C8_uninstall_mode envNull argsUn fsEmpty rfl
  exact ⟨rfl, h.1, h.2.2.1 rfl⟩

/-- C7: with the force-exception flag set (and neither uninstall nor
dry-run), the process exits 9 with summary status `"failure"` and an empty
`checks_run`; moreover, on any invocation at all, exit code 9 arises only
when the `try` body raised while no step-specific status code had been
assigned. -/
theorem C7_forced_fault :
    (∀ (env : Env) (args : Args) (fs : FS),
      args.force_exception = true → args.uninstall = false →
      args.dry_run = false →
      (main env args fs).exit_code = EXIT_EXCEPTION ∧
      (main env args fs).summary.status = "failure" ∧
      (main env args fs).summary.checks_run = []) ∧
    (∀ (env : Env) (args : Args) (fs : FS),
      (main env args fs).exit_code = EXIT_EXCEPTION →
      (main_body env args fs).status_code = EXIT_SUCCESS ∧
      (main_body env args fs).raised = true) := by
  constructor
  · intro env args fs hf hu hd
    have hb : main_body env args fs = ⟨EXIT_SUCCESS, [], true, fs⟩ := by
      unfold main_body
      simp [hf, hu, hd]
    refine ⟨?_, ?_, ?_⟩
    · rw [main_exit_code_eq, hb]
      simp
    · rw [main_summary_status, main_exit_code_eq, hb]
      simp [EXIT_SUCCESS, EXIT_EXCEPTION]
    · rw [main_summary_checks, hb]
  · intro env args fs h
    rw [main_exit_code_eq] at h
    by_cases hc : (main_body env args fs).raised = true ∧
        (main_body env args fs).status_code = EXIT_SUCCESS
    · exact ⟨hc.2, hc.1⟩
    · rw [if_neg hc] at h
      have hm := main_body_status_code_mem env args fs
      rw [h] at hm
      simp [EXIT_SUCCESS, EXIT_DOWNLOAD_FAIL, EXIT_INSTALL_FAIL,
        EXIT_VALIDATE_FAIL, EXIT_EXCEPTION] at hm

/-- Witness for C7: the concrete forced-exception invocation exits 9 with
status `"failure"` and no steps attempted. -/
theorem C7_forced_fault_witness :
    argsForce.force_exception = true ∧
    (main envNull argsForce fsEmpty).exit_code = EXIT_EXCEPTION ∧
    (main envNull argsForce fsEmpty).summary.status = "failure" ∧
    (main envNull argsForce fsEmpty).summary.checks_run = [] := by
  have h := C7_forced_fault.1 envNull argsForce fsEmpty rfl rfl rfl
  exact ⟨rfl, h.1, h.2.1, h.2.2⟩

theorem simulate_install_ok (env : Env) (fs : FS) (d : String)
    (h : env.simErr = false) :
    (simulate_install env fs d).1 = 0 ∧
    (simulate_install env fs d).2.isDir d = true ∧
    (simulate_install env fs d).2.lookupFile (pathJoin d "version.txt")
      = some "1.0.0" := by
  have hred : simulate_install env fs d
      = (0, (fs.makedirs d).writeF (pathJoin d "version.txt") "1.0.0") := by
    unfold simulate_install
    rw [h]
    rfl
  rw [hred]
  refine ⟨rfl, ?_, writeF_lookup_self _ _ _⟩
  rw [writeF_isDir]
  exact makedirs_isDir_self fs d

/-- C2: for a non-dry-run `silent_install` where the artifact is not a `.sh`
script, or the real invocation exited non-zero or timed out (`run_cmd` maps
a timeout to exit code 1), control falls through to simulated installation:
the install directory is created idempotently (`makedirs` is a no-op on an
existing directory), the marker file gets exact content `"1.0.0"`, the
return value is 0 when the simulation succeeds and 1 exactly when the
simulation itself raises — so a non-zero real installer exit code is never
propagated as failure when the simulation succeeds. -/
theorem C2_fallback_masks_installer_failure (env : Env) (fs : FS)
    (installer_path install_dir : String)
    (hfall : strEndsWith installer_path ".sh" = false ∨
      (runCmd env.runOutcome).1 ≠ 0) :
    (env.simErr = false →
      (silent_install env fs installer_path install_dir false).1 = 0 ∧
      (silent_install env fs installer_path install_dir false).2.isDir
        install_dir = true ∧
      (silent_install env fs installer_path install_dir false).2.lookupFile
        (pathJoin install_dir "version.txt") = some "1.0.0") ∧
    (env.simErr = true →
      (silent_install env fs installer_path install_dir false).1 = 1) ∧
    (∀ g : FS, g.isDir install_dir = true → g.makedirs install_dir = g) ∧
    (runCmd RunOutcome.timedOut).1 ≠ 0 := by
  have hmain : silent_install env fs installer_path install_dir false
      = simulate_install env
          (if strEndsWith installer_path ".sh" = true then env.fsAfterRun fs
           else fs) install_dir := by
    unfold silent_install
    by_cases hsh : strEndsWith installer_path ".sh" = true
    · rcases hfall with hf | hf
      · rw [hsh] at hf
        exact absurd hf (by decide)
      · simp [hsh, hf]
    · simp [hsh]
  refine ⟨?_, ?_, fun g hg => makedirs_of_isDir g install_dir hg, by decide⟩
  · intro hs
    rw [hmain]
    exact simulate_install_ok env _ install_dir hs
  · intro hs
    rw [hmain]
    unfold simulate_install
    rw [hs]
    simp

/-- Oracle whose installer subprocess completes with exit code 7 and whose
simulation succeeds. -/
def envRun7 : Env :=
  ⟨id, fun _ => false, "", fun _ => false, RunOutcome.completed 7 "" "", id,
   false, false, "20250101T000000", 0⟩

/-- Witness for C2: a `.sh` artifact whose real run exits 7 still yields
return value 0 and the `"1.0.0"` marker via simulation. -/
theorem C2_fallback_masks_installer_failure_witness :
    (runCmd envRun7.runOutcome).1 ≠ 0 ∧
    (silent_install envRun7 fsEmpty "/tmp/app_installer.sh" "/opt/app"
      false).1 = 0 ∧
    (silent_install envRun7 fsEmpty "/tmp/app_installer.sh" "/opt/app"
      false).2.lookupFile (pathJoin "/opt/app" "version.txt")
      = some "1.0.0" := by
  have h := (C2_fallback_masks_installer_failure envRun7 fsEmpty
    "/tmp/app_installer.sh" "/opt/app" (Or.inr (by decide))).1 rfl
  exact ⟨by decide, h.1, h.2.2⟩

/-- Arguments for the default full-verify mode naming a missing local
artifact. -/
def argsMissing : Args := ⟨"nope.bin", "app", false, "/opt/app", false, none, false⟩

/-- C6: a full-verify (default mode) invocation whose local artifact path
names no regular file exits with code 2 (`EXIT_DOWNLOAD_FAIL`), summary
status `"failure"`, and `checks_run = ["download"]`. -/
theorem C6_missing_artifact_scenario_b (env : Env) (args : Args) (fs : FS)
    (hu : args.uninstall = false) (hd : args.dry_run = false)
    (hf : args.force_exception = false)
    (hh : strStartsWith args.build_url "http" = false)
    (hmiss : fs.isFile args.build_url = false) :
    (main env args fs).exit_code = EXIT_DOWNLOAD_FAIL ∧
    (main env args fs).summary.status = "failure" ∧
    (main env args fs).summary.checks_run = ["download"] := by
  have hdl : download_installer env fs args.build_url
      (pathJoin "/tmp" (args.app_name ++ "_installer.sh")) 2 2
      = (false, fs, failTrace 2 0 3) := by
    unfold download_installer
    exact dl_go_allFail env _ _ 2 fs
      (fun n => dl_attempt_none_of_bad_local env fs _ _ n hh (Or.inl hmiss)) 3 0
  have hb : main_body env args fs
      = ⟨EXIT_DOWNLOAD_FAIL, ["download"], true, fs⟩ := by
    unfold main_body
    simp [hu, hd, hf, hdl]
  refine ⟨?_, ?_, ?_⟩
  · rw [main_exit_code_eq, hb]
    simp [EXIT_DOWNLOAD_FAIL, EXIT_SUCCESS]
  · rw [main_summary_status, main_exit_code_eq, hb]
    simp [EXIT_DOWNLOAD_FAIL, EXIT_SUCCESS]
  · rw [main_summary_checks, hb]

/-- Witness for C6: the concrete missing-artifact invocation exits 2 with
`checks_run = ["download"]`. -/
theorem C6_missing_artifact_scenario_b_witness :
    fsEmpty.isFile argsMissing.build_url = false ∧
    (main envNull argsMissing fsEmpty).exit_code = EXIT_DOWNLOAD_FAIL ∧
    (main envNull argsMissing fsEmpty).summary.status = "failure" ∧
    (main envNull argsMissing fsEmpty).summary.checks_run = ["download"] := by
  have h := C6_missing_artifact_scenario_b envNull argsMissing fsEmpty
    rfl rfl rfl (by decide) (by decide)
  exact ⟨by decide, h.1, h.2.1, h.2.2⟩

/-- C10: in full-verify mode, when acquisition succeeds but the pre-install
sanity check returns false, the process exits with `EXIT_DOWNLOAD_FAIL`,
which is the same code 2 used for a download failure (no distinct sanity
code exists), and `checks_run = ["download", "sanity-check"]`. -/
theorem C10_sanity_failure_reuses_exit2 (env : Env) (args : Args)
    (fs fs1 : FS) (tr : List Ev)
    (hu : args.uninstall = false) (hd : args.dry_run = false)
    (hf : args.force_exception = false)
    (hdl : download_installer env fs args.build_url
      (pathJoin "/tmp" (args.app_name ++ "_installer.sh")) 2 2
      = (true, fs1, tr))
    (hs : sanity_check fs1 (pathJoin "/tmp" (args.app_name ++ "_installer.sh"))
      = false) :
    (main env args fs).exit_code = EXIT_DOWNLOAD_FAIL ∧
    EXIT_DOWNLOAD_FAIL = 2 ∧
    (main env args fs).summary.status = "failure" ∧
    (main env args fs).summary.checks_run = ["download", "sanity-check"] := by
  have hb : main_body env args fs
      = ⟨EXIT_DOWNLOAD_FAIL, ["download", "sanity-check"], true, fs1⟩ := by
    unfold main_body
    simp [hu, hd, hf, hdl, hs]
  refine ⟨?_, rfl, ?_, ?_⟩
  · rw [main_exit_code_eq, hb]
    simp [EXIT_DOWNLOAD_FAIL, EXIT_SUCCESS]
  · rw [main_summary_status, main_exit_code_eq, hb]
    simp [EXIT_DOWNLOAD_FAIL, EXIT_SUCCESS]
  · rw [main_summary_checks, hb]

/-- Oracle whose remote fetch always succeeds but delivers zero bytes. -/
def envHttpEmpty : Env :=
  ⟨id, fun _ => true, "", fun _ => false, RunOutcome.completed 0 "" "", id,
   false, false, "20250101T000000", 0⟩

/-- Arguments for the default full-verify mode naming a remote artifact. -/
def argsHttp : Args := ⟨"http://a/b", "app", false, "/opt/app", false, none, false⟩

/-- Witness for C10: a successful fetch of an empty artifact fails the
sanity check, exiting 2 after `["download", "sanity-check"]`. -/
theorem C10_sanity_failure_reuses_exit2_witness :
    sanity_check (fsEmpty.writeF (pathJoin "/tmp" ("app" ++ "_installer.sh")) "")
      (pathJoin "/tmp" ("app" ++ "_installer.sh")) = false ∧
    (main envHttpEmpty argsHttp fsEmpty).exit_code = 2 ∧
    (main envHttpEmpty argsHttp fsEmpty).summary.checks_run
      = ["download", "sanity-check"] := by
  have h := C10_sanity_failure_reuses_exit2 envHttpEmpty argsHttp fsEmpty
    (fsEmpty.writeF (pathJoin "/tmp" ("app" ++ "_installer.sh")) "")
    [Ev.attempt 0] rfl rfl rfl (by decide) (by decide)
  exact ⟨by decide, h.1.trans h.2.1, h.2.2.2⟩

/-- Counterexample to C3 as stated: on a missing local artifact with
`maxRetries = 2`, `download_installer` performs 3 attempts, not 1 — the
local-path failure raises inside each attempt, but the surrounding retry
loop still retries it. -/
theorem C3_counterexample_three_attempts :
    ((download_installer envNull fsEmpty "missing.bin" "/tmp/app_installer.sh"
      2 2).2.2.filter Ev.isAttempt).length = 3 ∧
    ¬ ((download_installer envNull fsEmpty "missing.bin" "/tmp/app_installer.sh"
      2 2).2.2.filter Ev.isAttempt).length = 1 := by
  constructor <;> decide

/-- C3 (amended): for a local (non-remote) source whose path is missing or
zero-length, every individual attempt fails immediately (the attempt raises
before fetching or linking anything), but `download_installer` still runs
its full retry schedule: it returns false only after `maxRetries + 1`
attempts rather than after the first. -/
theorem C3_local_invalid_fails_every_attempt (env : Env) (fs : FS)
    (build_url dest_path : String) (retries backoff : Nat)
    (hh : strStartsWith build_url "http" = false)
    (hb : fs.isFile build_url = false ∨ fs.getsize build_url = 0) :
    (∀ n, dl_attempt env fs build_url dest_path n = none) ∧
    (download_installer env fs build_url dest_path retries backoff).1 = false ∧
    ((download_installer env fs build_url dest_path retries
      backoff).2.2.filter Ev.isAttempt).length = retries + 1 := by
  have hnone : ∀ n, dl_attempt env fs build_url dest_path n = none :=
    fun n => dl_attempt_none_of_bad_local env fs build_url dest_path n hh hb
  have hgo := dl_go_allFail env build_url dest_path backoff fs hnone
    (retries + 1) 0
  refine ⟨hnone, ?_, ?_⟩
  · unfold download_installer
    rw [hgo]
  · unfold download_installer
    rw [hgo]
    exact failTrace_attempt_count backoff (retries + 1) 0

/-- Witness for C3 (amended): a concrete missing local artifact fails all
three attempts of the default schedule. -/
theorem C3_local_invalid_fails_every_attempt_witness :
    strStartsWith "missing.bin" "http" = false ∧
    (download_installer envNull fsEmpty "missing.bin" "/tmp/a" 2 2).1 = false ∧
    ((download_installer envNull fsEmpty "missing.bin" "/tmp/a"
      2 2).2.2.filter Ev.isAttempt).length = 3 := by
  have h := C3_local_invalid_fails_every_attempt envNull fsEmpty "missing.bin"
    "/tmp/a" 2 2 (by decide) (Or.inl (by decide))
  exact ⟨by decide, h.2.1, h.2.2⟩

/-- Counterexample to C4 as stated: with `maxRetries = 0` on a missing local
artifact, the trace is `[attempt 0, sleep 2]` — the backoff sleep is
observed after the final (only) attempt, contradicting the claim that no
delay follows the final attempt. -/
theorem C4_counterexample_sleep_after_final :
    (download_installer envNull fsEmpty "missing.bin" "/tmp/app_installer.sh"
      0 2).2.2 = [Ev.attempt 0, Ev.sleep 2] ∧
    (download_installer envNull fsEmpty "missing.bin" "/tmp/app_installer.sh"
      0 2).2.2.getLast? = some (Ev.sleep 2) := by
  constructor <;> decide

/-- C4 (amended): for every local artifact path that is missing or
zero-length, `download_installer` returns false after exactly
`maxRetries + 1` total attempts, with a `backoffSeconds` sleep observed
after every failed attempt — including after the final attempt, not only
between consecutive attempts. -/
theorem C4_retry_count_and_backoff (env : Env) (fs : FS)
    (build_url dest_path : String) (retries backoff : Nat)
    (hh : strStartsWith build_url "http" = false)
    (hb : fs.isFile build_url = false ∨ fs.getsize build_url = 0) :
    download_installer env fs build_url dest_path retries backoff
      = (false, fs, failTrace backoff 0 (retries + 1)) ∧
    ((download_installer env fs build_url dest_path retries
      backoff).2.2.filter Ev.isAttempt).length = retries + 1 ∧
    (download_installer env fs build_url dest_path retries
      backoff).2.2.getLast? = some (Ev.sleep backoff) := by
  have hnone : ∀ n, dl_attempt env fs build_url dest_path n = none :=
    fun n => dl_attempt_none_of_bad_local env fs build_url dest_path n hh hb
  have hgo := dl_go_allFail env build_url dest_path backoff fs hnone
    (retries + 1) 0
  have hd : download_installer env fs build_url dest_path retries backoff
      = (false, fs, failTrace backoff 0 (retries + 1)) := by
    unfold download_installer
    rw [hgo]
  refine ⟨hd, ?_, ?_⟩
  · rw [hd]
    exact failTrace_attempt_count backoff (retries + 1) 0
  · rw [hd]
    exact failTrace_getLast backoff retries 0

/-- Witness for C4 (amended): the default schedule on a concrete zero-length
local artifact — 3 attempts, trailing sleep. -/
theorem C4_retry_count_and_backoff_witness :
    (⟨[("empty.bin", "")], []⟩ : FS).getsize "empty.bin" = 0 ∧
    download_installer envNull ⟨[("empty.bin", "")], []⟩ "empty.bin" "/tmp/b" 2 2
      = (false, ⟨[("empty.bin", "")], []⟩, failTrace 2 0 3) ∧
    (download_installer envNull ⟨[("empty.bin", "")], []⟩ "empty.bin" "/tmp/b"
      2 2).2.2.getLast? = some (Ev.sleep 2) := by
  have h := C4_retry_count_and_backoff envNull ⟨[("empty.bin", "")], []⟩
    "empty.bin" "/tmp/b" 2 2 (by decide) (Or.inr (by decide))
  exact ⟨by decide, h.1, h.2.2⟩

/-- Case enumeration for the full-verify branch: the `try` body ends in one
of exactly four states, pairing each status code with the checks list of
steps entered up to and including the failing one. -/
theorem main_body_full_enum (env : Env) (args : Args) (fs : FS)
    (hu : args.uninstall = false) (hd : args.dry_run = false)
    (hf : args.force_exception = false) :
    ((main_body env args fs).status_code = EXIT_DOWNLOAD_FAIL ∧
      ((main_body env args fs).checks_run = ["download"] ∨
        (main_body env args fs).checks_run = ["download", "sanity-check"]) ∧
      (main_body env args fs).raised = true) ∨
    ((main_body env args fs).status_code = EXIT_INSTALL_FAIL ∧
      (main_body env args fs).checks_run
        = ["download", "sanity-check", "install"] ∧
      (main_body env args fs).raised = true) ∨
    ((main_body env args fs).status_code = EXIT_VALIDATE_FAIL ∧
      (main_body env args fs).checks_run = fullSteps ∧
      (main_body env args fs).raised = true) ∨
    ((main_body env args fs).status_code = EXIT_SUCCESS ∧
      (main_body env args fs).checks_run = fullSteps ∧
      (main_body env args fs).raised = false) := by
  unfold main_body
  simp only [hu, hd, hf, Bool.false_eq_true, if_false]
  repeat' split
  all_goals simp [fullSteps]

/-- C5: in full-verify mode the summary's `checks_run` is a non-empty prefix
of `["download", "sanity-check", "install", "validate"]`; each name is
appended before its step runs, so the failing step's name is present while
names after a short-circuiting failure are not: exit 0 and exit 4 show all
four names (validate was entered), exit 3 stops at `"install"`, and exit 2
stops at `"download"` or `"sanity-check"`. -/
theorem C5_checks_run_prefix_shape (env : Env) (args : Args) (fs : FS)
    (hu : args.uninstall = false) (hd : args.dry_run = false)
    (hf : args.force_exception = false) :
    (∃ t, (main env args fs).summary.checks_run ++ t = fullSteps) ∧
    (main env args fs).summary.checks_run ≠ [] ∧
    ((main env args fs).exit_code = EXIT_SUCCESS →
      (main env args fs).summary.checks_run = fullSteps) ∧
    ((main env args fs).exit_code = EXIT_INSTALL_FAIL →
      (main env args fs).summary.checks_run
        = ["download", "sanity-check", "install"]) ∧
    ((main env args fs).exit_code = EXIT_VALIDATE_FAIL →
      (main env args fs).summary.checks_run = fullSteps) ∧
    ((main env args fs).exit_code = EXIT_DOWNLOAD_FAIL →
      (main env args fs).summary.checks_run = ["download"] ∨
      (main env args fs).summary.checks_run
        = ["download", "sanity-check"]) := by
  have henum := main_body_full_enum env args fs hu hd hf
  rw [main_summary_checks, main_exit_code_eq]
  rcases henum with ⟨hc, hck, hr⟩ | ⟨hc, hck, hr⟩ | ⟨hc, hck, hr⟩ | ⟨hc, hck, hr⟩ <;>
    rw [hc, hr]
  · rcases hck with hck | hck <;> rw [hck] <;>
      refine ⟨⟨_, rfl⟩, ?_, ?_, ?_, ?_, ?_⟩ <;>
      simp [EXIT_SUCCESS, EXIT_DOWNLOAD_FAIL, EXIT_INSTALL_FAIL,
        EXIT_VALIDATE_FAIL, EXIT_EXCEPTION, fullSteps]
  · rw [hck]
    refine ⟨⟨_, rfl⟩, ?_, ?_, ?_, ?_, ?_⟩ <;>
      simp [EXIT_SUCCESS, EXIT_DOWNLOAD_FAIL, EXIT_INSTALL_FAIL,
        EXIT_VALIDATE_FAIL, EXIT_EXCEPTION, fullSteps]
  · rw [hck]
    refine ⟨⟨[], rfl⟩, ?_, ?_, ?_, ?_, ?_⟩ <;>
      simp [EXIT_SUCCESS, EXIT_DOWNLOAD_FAIL, EXIT_INSTALL_FAIL,
        EXIT_VALIDATE_FAIL, EXIT_EXCEPTION, fullSteps]
  · rw [hck]
    refine ⟨⟨[], rfl⟩, ?_, ?_, ?_, ?_, ?_⟩ <;>
      simp [EXIT_SUCCESS, EXIT_DOWNLOAD_FAIL, EXIT_INSTALL_FAIL,
        EXIT_VALIDATE_FAIL, EXIT_EXCEPTION, fullSteps]

/-- Witness for C5: on the concrete missing-artifact run, `checks_run` is a
prefix of the full step list and the exit-2 case names only `"download"`. -/
theorem C5_checks_run_prefix_shape_witness :
    (argsMissing.uninstall = false ∧ argsMissing.dry_run = false ∧
      argsMissing.force_exception = false) ∧
    (∃ t, (main envNull argsMissing fsEmpty).summary.checks_run ++ t
      = fullSteps) ∧
    (main envNull argsMissing fsEmpty).summary.checks_run ≠ [] := by
  have h := C5_checks_run_prefix_shape envNull argsMissing fsEmpty rfl rfl rfl
  exact ⟨⟨rfl, rfl, rfl⟩, h.1, h.2.1⟩

end InstallerVerify
